import Mathlib

/-!
Worker process supervisor: shallow embedding and verification.

This file embeds the `Worker` class of the mediasoup Node library (the
worker-process supervisor) into Lean 4 and proves properties of its
lifecycle state machine: spawn-argument translation, close/death
transitions, the resource-registry cascade, and the request paths.

The embedding follows the TypeScript source: the mutable private fields of
the class become a `WorkerState` record, each method becomes a function
from states to states paired with the list of externally visible actions
it performs (process kills, channel messages, emitted events), and
JavaScript dynamic values are modelled by an explicit `JSValue` type so
that the `typeof` / truthiness checks of the source can be written as in
the code.
-/

namespace Mediasoup

/-- A non-array JavaScript runtime value, as far as the Worker code
inspects one: the source only distinguishes values via `typeof`,
`Array.isArray`, truthiness and template-literal stringification.
Numbers are restricted to integers plus a NaN marker (the settings in
scope are integer ports). -/
inductive JSFlat where
  | undefined
  | null
  | boolean (b : Bool)
  | nan
  | num (n : Int)
  | str (s : String)
  | obj (fields : List String)
  deriving DecidableEq, Repr

/-- A JavaScript runtime value: a flat value or an array of flat values
(one array level suffices for the Worker code, which only iterates the
`logTags` array and type-checks its elements). -/
inductive JSValue where
  | undefined
  | null
  | boolean (b : Bool)
  | nan
  | num (n : Int)
  | str (s : String)
  | obj (fields : List String)
  | arr (elems : List JSFlat)
  deriving DecidableEq, Repr

/-- Inclusion of flat values into values. -/
def JSFlat.toVal : JSFlat → JSValue
  | .undefined => .undefined
  | .null => .null
  | .boolean b => .boolean b
  | .nan => .nan
  | .num n => .num n
  | .str s => .str s
  | .obj fields => .obj fields

namespace JSValue

/-- JavaScript truthiness. -/
def truthy : JSValue → Bool
  | undefined => false
  | null => false
  | boolean b => b
  | nan => false
  | num n => n ≠ 0
  | str s => s ≠ ""
  | obj _ => true
  | arr _ => true

/-- The check `typeof v === 'string'`. -/
def typeofString : JSValue → Bool
  | str _ => true
  | _ => false

/-- The check `typeof v === 'number'` (NaN is a number in JavaScript). -/
def typeofNumber : JSValue → Bool
  | nan => true
  | num _ => true
  | _ => false

/-- The check `typeof v === 'object'` (null and arrays included). -/
def typeofObject : JSValue → Bool
  | null => true
  | obj _ => true
  | arr _ => true
  | _ => false

/-- The check `Number.isNaN(v)`. -/
def isNaN : JSValue → Bool
  | nan => true
  | _ => false

/-- The check `Array.isArray(v)`. -/
def isArray : JSValue → Bool
  | arr _ => true
  | _ => false

/-- Template-literal stringification of a flat value, as in `${v}`. -/
def toTemplateFlat : JSFlat → String
  | .undefined => "undefined"
  | .null => "null"
  | .boolean b => if b then "true" else "false"
  | .nan => "NaN"
  | .num n => toString n
  | .str s => s
  | .obj _ => "[object Object]"

/-- Template-literal stringification of a value, as in `${v}`. -/
def toTemplate : JSValue → String
  | undefined => "undefined"
  | null => "null"
  | boolean b => if b then "true" else "false"
  | nan => "NaN"
  | num n => toString n
  | str s => s
  | obj _ => "[object Object]"
  | arr elems => String.intercalate "," (elems.map toTemplateFlat)

/-- Array elements of a value: the list iterated by `for (const x of xs)`
after an `Array.isArray(xs) ? xs : []` guard. -/
def elements : JSValue → List JSValue
  | arr elems => elems.map JSFlat.toVal
  | _ => []

end JSValue

/-- The `WorkerSettings` argument of the Worker constructor.  Each field
holds the raw JavaScript value supplied by the caller; an absent field is
`undefined`. -/
structure WorkerSettings where
  logLevel : JSValue
  logTags : JSValue
  rtcMinPort : JSValue
  rtcMaxPort : JSValue
  dtlsCertificateFile : JSValue
  dtlsPrivateKeyFile : JSValue
  libwebrtcFieldTrials : JSValue
  appData : JSValue
  deriving DecidableEq, Repr

/-- Settings object with every field absent. -/
def emptySettings : WorkerSettings :=
  ⟨.undefined, .undefined, .undefined, .undefined, .undefined, .undefined,
   .undefined, .undefined⟩

/-- The environment variables the Worker constructor consults when
building the spawn command line. -/
structure SpawnEnv where
  MEDIASOUP_USE_VALGRIND : Option String
  MEDIASOUP_VALGRIND_BIN : Option String
  MEDIASOUP_VALGRIND_OPTIONS : Option String
  deriving DecidableEq, Repr

/-- Environment with no MEDIASOUP_* valgrind variable set. -/
def plainEnv : SpawnEnv := ⟨none, none, none⟩

/-- Splitting a valgrind-options string on runs of whitespace, as
`str.split(/\s+/)` does for strings without leading whitespace. -/
def splitWs (s : String) : List String :=
  (s.split fun c => c = ' ' ∨ c = '\t' ∨ c = '\n').filter fun t => t ≠ ""

/-- One `--key=value` command-line argument, kept structured so that the
key a rendered argument belongs to stays recoverable. -/
structure SpawnArg where
  key : String
  value : String
  deriving DecidableEq, Repr

/-- Rendering of an argument to the string the source pushes:
`--key=value`. -/
def SpawnArg.render (a : SpawnArg) : String :=
  "--" ++ a.key ++ "=" ++ a.value

/-- The settings-derived command-line arguments, in source order.  Each
recognized setting is appended under the source's own
type-and-truthiness guard; anything else is skipped (never defaulted). -/
def settingsArgs (st : WorkerSettings) : List SpawnArg :=
  (if st.logLevel.typeofString ∧ st.logLevel.truthy then
    [⟨"logLevel", st.logLevel.toTemplate⟩]
  else []) ++
  ((st.logTags.elements.filter fun t => t.typeofString ∧ t.truthy).map
    fun t => (⟨"logTag", t.toTemplate⟩ : SpawnArg)) ++
  (if st.rtcMinPort.typeofNumber ∧ ¬st.rtcMinPort.isNaN then
    [⟨"rtcMinPort", st.rtcMinPort.toTemplate⟩]
  else []) ++
  (if st.rtcMaxPort.typeofNumber ∧ ¬st.rtcMaxPort.isNaN then
    [⟨"rtcMaxPort", st.rtcMaxPort.toTemplate⟩]
  else []) ++
  (if st.dtlsCertificateFile.typeofString ∧ st.dtlsCertificateFile.truthy then
    [⟨"dtlsCertificateFile", st.dtlsCertificateFile.toTemplate⟩]
  else []) ++
  (if st.dtlsPrivateKeyFile.typeofString ∧ st.dtlsPrivateKeyFile.truthy then
    [⟨"dtlsPrivateKeyFile", st.dtlsPrivateKeyFile.toTemplate⟩]
  else []) ++
  (if st.libwebrtcFieldTrials.typeofString ∧ st.libwebrtcFieldTrials.truthy then
    [⟨"libwebrtcFieldTrials", st.libwebrtcFieldTrials.toTemplate⟩]
  else [])

/-- The command-line arguments the Worker constructor passes to `spawn`:
the valgrind environment branch followed by the rendered
settings-derived arguments. -/
def spawnArgs (env : SpawnEnv) (workerBin : String) (st : WorkerSettings) :
    List String :=
  (if env.MEDIASOUP_USE_VALGRIND = some "true" then
    (match env.MEDIASOUP_VALGRIND_OPTIONS with
      | some opts => splitWs opts
      | none => []) ++ [workerBin]
  else []) ++
  (settingsArgs st).map SpawnArg.render

/-- Number of arguments a given setting key contributes. -/
def keyCount (key : String) (args : List SpawnArg) : Nat :=
  args.countP fun a => a.key = key

/-- An error value raised or emitted by the Worker code. -/
inductive WorkerError where
  | typeError (message : String)
  | error (message : String)
  | invalidStateError (message : String)
  deriving DecidableEq, Repr

/-- An externally visible action performed by a Worker operation, in the
order the source performs them: OS-level actions on the child process,
Channel activity, cascade calls into owned resources, and emitted
events. -/
inductive Action where
  | removeAllListeners (event : String)
  | addFakeErrorHandler
  | killChild (signal : String)
  | channelClose
  | routerWorkerClosed (id : Nat)
  | webRtcServerWorkerClosed (id : Nat)
  | channelSend (method : String)
  | emitSuccess
  | emitFailure (err : WorkerError)
  | safeEmitDied (err : WorkerError)
  | observerEmitClose
  | observerEmitNewRouter (id : Nat)
  | observerEmitNewWebRtcServer (id : Nat)
  deriving DecidableEq, Repr

/-- The mutable state of one Worker instance: its private fields
(`#child` as a liveness flag, `#pid`, `#closed`, `#died`, `#appData`, the
two resource registries as lists of locally generated identifiers in
insertion order) together with the constructor-local `spawnDone` flag and
the closed flag of the owned Channel. -/
structure WorkerState where
  childAlive : Bool
  pid : Nat
  channelClosed : Bool
  closed : Bool
  died : Bool
  appData : JSValue
  routers : List Nat
  webRtcServers : List Nat
  spawnDone : Bool
  deriving DecidableEq, Repr

/-- The Worker state right after the constructor has spawned the process
and installed its handlers: `this.#appData = appData || ({} ...)`, both
registries empty, `spawnDone = false`. -/
def Worker.mk (pid : Nat) (st : WorkerSettings) : WorkerState :=
  { childAlive := true
    pid := pid
    channelClosed := false
    closed := false
    died := false
    appData := if st.appData.truthy then st.appData else .obj []
    routers := []
    webRtcServers := []
    spawnDone := false }

/-- The `close()` method: early-returns when already closed; otherwise
sets `#closed`, detaches and kills the child process when it is still
referenced, closes the Channel, cascades `workerClosed()` to every
registered Router and WebRtcServer, clears both registries and emits the
observer `close` event. -/
def Worker.close (s : WorkerState) : WorkerState × List Action :=
  if s.closed then (s, [])
  else
    ({ s with
        closed := true
        childAlive := false
        channelClosed := true
        routers := []
        webRtcServers := [] },
     (if s.childAlive then
        [Action.removeAllListeners "exit", Action.removeAllListeners "error",
         Action.addFakeErrorHandler, Action.killChild "SIGTERM"]
      else []) ++
     [Action.channelClose] ++
     s.routers.map Action.routerWorkerClosed ++
     s.webRtcServers.map Action.webRtcServerWorkerClosed ++
     [Action.observerEmitClose])

/-- The private `workerDied(error)` method: early-returns when already
closed; otherwise sets `#closed` and `#died`, closes the Channel,
cascades `workerClosed()` to every registered Router and WebRtcServer,
clears both registries, emits `died` and the observer `close` event. -/
def Worker.workerDied (s : WorkerState) (err : WorkerError) :
    WorkerState × List Action :=
  if s.closed then (s, [])
  else
    ({ s with
        closed := true
        died := true
        channelClosed := true
        routers := []
        webRtcServers := [] },
     [Action.channelClose] ++
     s.routers.map Action.routerWorkerClosed ++
     s.webRtcServers.map Action.webRtcServerWorkerClosed ++
     [Action.safeEmitDied err, Action.observerEmitClose])

/-- Stringification of the exit code in the failure message: `null` when
the process was terminated by a signal. -/
def showCode : Option Int → String
  | some n => toString n
  | none => "null"

/-- Stringification of the terminating signal in the failure message. -/
def showSignal : Option String → String
  | some sg => sg
  | none => "null"

/-- The failure detail `[pid:..., code:..., signal:...]` built by the
`exit` handler. -/
def exitMessage (pid : Nat) (code : Option Int) (signal : Option String) :
    String :=
  "[pid:" ++ toString pid ++ ", code:" ++ showCode code ++ ", signal:" ++
    showSignal signal ++ "]"

/-- The handler installed for the child process `exit` event: clears the
child reference; before readiness (`!spawnDone`) it marks the spawn
decided, closes the Worker and emits `@failure` (a `TypeError('wrong
settings')` for exit code 42, a generic error embedding pid, code and
signal otherwise); after readiness it delegates to `workerDied`. -/
def Worker.onExit (s : WorkerState) (code : Option Int)
    (signal : Option String) : WorkerState × List Action :=
  let s0 := { s with childAlive := false }
  if ¬s0.spawnDone then
    let s1 := { s0 with spawnDone := true }
    if code = some 42 then
      let r := Worker.close s1
      (r.1, r.2 ++ [Action.emitFailure (WorkerError.typeError "wrong settings")])
    else
      let r := Worker.close s1
      (r.1, r.2 ++
        [Action.emitFailure
          (WorkerError.error (exitMessage s.pid code signal))])
  else
    Worker.workerDied s0 (WorkerError.error (exitMessage s.pid code signal))

/-- The handler installed for the child process `error` event: clears the
child reference; before readiness it marks the spawn decided, closes the
Worker and emits `@failure` with the error; after readiness it delegates
to `workerDied`. -/
def Worker.onError (s : WorkerState) (err : WorkerError) :
    WorkerState × List Action :=
  let s0 := { s with childAlive := false }
  if ¬s0.spawnDone then
    let s1 := { s0 with spawnDone := true }
    let r := Worker.close s1
    (r.1, r.2 ++ [Action.emitFailure err])
  else
    Worker.workerDied s0 err

/-- The once-listener for the Channel notification keyed by the pid: on
the first `WORKER_RUNNING` event before the spawn is decided it marks the
spawn decided and emits `@success`. -/
def Worker.onRunning (s : WorkerState) : WorkerState × List Action :=
  if ¬s.spawnDone then ({ s with spawnDone := true }, [Action.emitSuccess])
  else (s, [])

/-- The `appData` setter: unconditional assignment. -/
def Worker.setAppData (s : WorkerState) (d : JSValue) : WorkerState :=
  { s with appData := d }

/-- Modelled from the spec: the Channel class (`Channel.ts` is not part of
the provided sources; only its call sites are).  Per the spec, every
request round-trips through the Channel and fails immediately with a
uniform "closed" error when the Channel is already closed, without
contacting the process; otherwise the framed request is written out. -/
def channelRequest (s : WorkerState) (method : String) :
    Except WorkerError Unit × List Action :=
  if s.channelClosed then
    (Except.error
      (WorkerError.invalidStateError
        ("Channel closed, pending request aborted [method:" ++ method ++ "]")),
     [])
  else (Except.ok (), [Action.channelSend method])

/-- The decoded body of a `WORKER_DUMP` response
(`FbsWorker.DumpResponse` after parsing). -/
structure DumpResponse where
  pid : Nat
  webRtcServerIds : List String
  routerIds : List String
  channelRequestHandlers : List String
  channelNotificationHandlers : List String
  liburing : Option (Int × Int × Int)
  deriving DecidableEq, Repr

/-- The `WorkerDump` record returned by `dump()`. -/
structure WorkerDump where
  pid : Nat
  webRtcServerIds : List String
  routerIds : List String
  channelRequestHandlers : List String
  channelNotificationHandlers : List String
  liburing : Option (Int × Int × Int)
  deriving DecidableEq, Repr

/-- The `parseWorkerDumpResponse` helper: copies the identifier vectors
and handler-name vectors, and the liburing counters when present. -/
def parseWorkerDumpResponse (binary : DumpResponse) : WorkerDump :=
  { pid := binary.pid
    webRtcServerIds := binary.webRtcServerIds
    routerIds := binary.routerIds
    channelRequestHandlers := binary.channelRequestHandlers
    channelNotificationHandlers := binary.channelNotificationHandlers
    liburing := binary.liburing }

/-- The `dump()` method: sends `WORKER_DUMP` through the Channel and
decodes the response.  The process's answer is a parameter (the worker
process is an external collaborator). -/
def Worker.dump (s : WorkerState) (resp : DumpResponse) :
    WorkerState × Except WorkerError WorkerDump × List Action :=
  match channelRequest s "WORKER_DUMP" with
  | (Except.error e, acts) => (s, Except.error e, acts)
  | (Except.ok _, acts) => (s, Except.ok (parseWorkerDumpResponse resp), acts)

/-- The unpacked body of a `WORKER_GET_RESOURCE_USAGE` response
(`FbsWorker.ResourceUsageResponse.unpack()`): sixteen 64-bit counters. -/
structure ResourceUsageResponse where
  ruUtime : Int
  ruStime : Int
  ruMaxrss : Int
  ruIxrss : Int
  ruIdrss : Int
  ruIsrss : Int
  ruMinflt : Int
  ruMajflt : Int
  ruNswap : Int
  ruInblock : Int
  ruOublock : Int
  ruMsgsnd : Int
  ruMsgrcv : Int
  ruNsignals : Int
  ruNvcsw : Int
  ruNivcsw : Int
  deriving DecidableEq, Repr

/-- The `WorkerResourceUsage` record: exactly the sixteen `uv_rusage_t`
fields, each numeric (integral at this granularity: `Number(...)` applied
to a 64-bit counter). -/
structure WorkerResourceUsage where
  ru_utime : Int
  ru_stime : Int
  ru_maxrss : Int
  ru_ixrss : Int
  ru_idrss : Int
  ru_isrss : Int
  ru_minflt : Int
  ru_majflt : Int
  ru_nswap : Int
  ru_inblock : Int
  ru_oublock : Int
  ru_msgsnd : Int
  ru_msgrcv : Int
  ru_nsignals : Int
  ru_nvcsw : Int
  ru_nivcsw : Int
  deriving DecidableEq, Repr

/-- The `getResourceUsage()` method: sends `WORKER_GET_RESOURCE_USAGE`
through the Channel and converts each field of the unpacked response with
`Number(...)`. -/
def Worker.getResourceUsage (s : WorkerState) (ru : ResourceUsageResponse) :
    WorkerState × Except WorkerError WorkerResourceUsage × List Action :=
  match channelRequest s "WORKER_GET_RESOURCE_USAGE" with
  | (Except.error e, acts) => (s, Except.error e, acts)
  | (Except.ok _, acts) =>
    (s,
     Except.ok
       { ru_utime := ru.ruUtime
         ru_stime := ru.ruStime
         ru_maxrss := ru.ruMaxrss
         ru_ixrss := ru.ruIxrss
         ru_idrss := ru.ruIdrss
         ru_isrss := ru.ruIsrss
         ru_minflt := ru.ruMinflt
         ru_majflt := ru.ruMajflt
         ru_nswap := ru.ruNswap
         ru_inblock := ru.ruInblock
         ru_oublock := ru.ruOublock
         ru_msgsnd := ru.ruMsgsnd
         ru_msgrcv := ru.ruMsgrcv
         ru_nsignals := ru.ruNsignals
         ru_nvcsw := ru.ruNvcsw
         ru_nivcsw := ru.ruNivcsw },
     acts)

/-- The `updateSettings()` method: packs the partial settings and sends
`WORKER_UPDATE_SETTINGS` (packing writes only into the local buffer
builder; nothing reaches the process before the Channel send). -/
def Worker.updateSettings (s : WorkerState) :
    WorkerState × Except WorkerError Unit × List Action :=
  match channelRequest s "WORKER_UPDATE_SETTINGS" with
  | (Except.error e, acts) => (s, Except.error e, acts)
  | (Except.ok _, acts) => (s, Except.ok (), acts)

/-- The `createWebRtcServer()` method: rejects a truthy non-object
`appData` locally with a `TypeError` before anything is encoded; then
generates a fresh identifier, sends `WORKER_CREATE_WEBRTCSERVER`, and on
success registers the new server and emits the observer event.  The
fresh UUID is a parameter (`utils.generateUUIDv4`). -/
def Worker.createWebRtcServer (s : WorkerState) (appData : JSValue)
    (newId : Nat) : WorkerState × Except WorkerError Nat × List Action :=
  if appData.truthy ∧ ¬appData.typeofObject then
    (s, Except.error (WorkerError.typeError "if given, appData must be an object"),
     [])
  else
    match channelRequest s "WORKER_CREATE_WEBRTCSERVER" with
    | (Except.error e, acts) => (s, Except.error e, acts)
    | (Except.ok _, acts) =>
      ({ s with webRtcServers := s.webRtcServers ++ [newId] },
       Except.ok newId,
       acts ++ [Action.observerEmitNewWebRtcServer newId])

/-- The `createRouter()` method: rejects a truthy non-object `appData`
locally with a `TypeError`; then runs capability negotiation
(`ortc.generateRouterRtpCapabilities`, an external collaborator that may
throw — its outcome is a parameter) before any request is encoded; then
generates a fresh identifier, sends `WORKER_CREATE_ROUTER`, and on
success registers the new router and emits the observer event. -/
def Worker.createRouter (s : WorkerState) (appData : JSValue)
    (ortcResult : Except WorkerError Unit) (newId : Nat) :
    WorkerState × Except WorkerError Nat × List Action :=
  if appData.truthy ∧ ¬appData.typeofObject then
    (s, Except.error (WorkerError.typeError "if given, appData must be an object"),
     [])
  else
    match ortcResult with
    | Except.error e => (s, Except.error e, [])
    | Except.ok _ =>
      match channelRequest s "WORKER_CREATE_ROUTER" with
      | (Except.error e, acts) => (s, Except.error e, acts)
      | (Except.ok _, acts) =>
        ({ s with routers := s.routers ++ [newId] },
         Except.ok newId,
         acts ++ [Action.observerEmitNewRouter newId])

/-- The `@close` listener registered on each created Router: removes it
from the routers registry (self-initiated close). -/
def Worker.routerSelfClosed (s : WorkerState) (id : Nat) : WorkerState :=
  { s with routers := s.routers.erase id }

/-- The `@close` listener registered on each created WebRtcServer:
removes it from the webRtcServers registry (self-initiated close). -/
def Worker.webRtcServerSelfClosed (s : WorkerState) (id : Nat) : WorkerState :=
  { s with webRtcServers := s.webRtcServers.erase id }

/-- One state-mutating entry point of a Worker: a public method call, a
process event delivered to an installed handler, or a resource's
self-close notification. -/
inductive Op where
  | close
  | exit (code : Option Int) (signal : Option String)
  | errorEvent (err : WorkerError)
  | running
  | setAppData (d : JSValue)
  | updateSettings
  | dump (resp : DumpResponse)
  | getResourceUsage (ru : ResourceUsageResponse)
  | createWebRtcServer (appData : JSValue) (newId : Nat)
  | createRouter (appData : JSValue) (ortcResult : Except WorkerError Unit)
      (newId : Nat)
  | routerSelfClosed (id : Nat)
  | webRtcServerSelfClosed (id : Nat)

/-- The effect of one entry point on the Worker state, with the actions
it performs. -/
def Worker.step (s : WorkerState) : Op → WorkerState × List Action
  | Op.close => Worker.close s
  | Op.exit code signal => Worker.onExit s code signal
  | Op.errorEvent err => Worker.onError s err
  | Op.running => Worker.onRunning s
  | Op.setAppData d => (Worker.setAppData s d, [])
  | Op.updateSettings =>
    ((Worker.updateSettings s).1, (Worker.updateSettings s).2.2)
  | Op.dump resp => ((Worker.dump s resp).1, (Worker.dump s resp).2.2)
  | Op.getResourceUsage ru =>
    ((Worker.getResourceUsage s ru).1, (Worker.getResourceUsage s ru).2.2)
  | Op.createWebRtcServer d newId =>
    ((Worker.createWebRtcServer s d newId).1,
     (Worker.createWebRtcServer s d newId).2.2)
  | Op.createRouter d ortcResult newId =>
    ((Worker.createRouter s d ortcResult newId).1,
     (Worker.createRouter s d ortcResult newId).2.2)
  | Op.routerSelfClosed id => (Worker.routerSelfClosed s id, [])
  | Op.webRtcServerSelfClosed id => (Worker.webRtcServerSelfClosed s id, [])

/-- The states a Worker instance can be in: the constructor's result
followed by any sequence of entry points. -/
inductive Reachable : WorkerState → Prop where
  | init : ∀ pid st, Reachable (Worker.mk pid st)
  | step : ∀ s op, Reachable s → Reachable (Worker.step s op).1

/-- A process event as delivered to the Worker's installed handlers. -/
inductive ProcEvent where
  | exit (code : Option Int) (signal : Option String)
  | errorEvent (err : WorkerError)

/-- Delivery of a sequence of process events to the Worker's handlers,
accumulating the actions performed. -/
def deliverEvents (s : WorkerState) : List ProcEvent → WorkerState × List Action
  | [] => (s, [])
  | e :: es =>
    let r :=
      match e with
      | ProcEvent.exit code signal => Worker.onExit s code signal
      | ProcEvent.errorEvent err => Worker.onError s err
    let r' := deliverEvents r.1 es
    (r'.1, r.2 ++ r'.2)

/-! ## Helper lemmas -/

/-- Closing an already-closed Worker is the identity and performs no
action. -/
lemma close_of_closed (s : WorkerState) (h : s.closed = true) :
    Worker.close s = (s, []) := by
  simp [Worker.close, h]

/-- The state after `close()` when the Worker was still open. -/
lemma close_state_eq (s : WorkerState) (h : s.closed = false) :
    (Worker.close s).1 =
      { s with
          closed := true
          childAlive := false
          channelClosed := true
          routers := []
          webRtcServers := [] } := by
  simp [Worker.close, h]

/-- After `close()` the closed flag always holds. -/
lemma closed_after_close (s : WorkerState) :
    (Worker.close s).1.closed = true := by
  by_cases h : s.closed = true
  · simp [Worker.close, h]
  · simp [Worker.close, h]

/-- After `close()` the Channel is closed whenever it already was or the
Worker was still open. -/
lemma channelClosed_after_close (s : WorkerState) (h : s.closed = false) :
    (Worker.close s).1.channelClosed = true := by
  simp [Worker.close, h]

/-- `close()` never sets the died flag. -/
lemma died_after_close (s : WorkerState) :
    (Worker.close s).1.died = s.died := by
  by_cases h : s.closed = true
  · simp [Worker.close, h]
  · simp [Worker.close, h]

/-! ## Claims -/

/-- C3: `close()` is idempotent: a second `close()` leaves exactly the
state the first one produced (same closed and died flags, registries and
channel state) and performs no action at all — no kill, no listener
removal, no second observer `close` event. -/
theorem Worker.close_idempotent (s : WorkerState) :
    Worker.close (Worker.close s).1 = ((Worker.close s).1, []) :=
  close_of_closed _ (closed_after_close s)

/-- One Worker entry point preserves the died-implies-closed
invariant. -/
lemma step_preserves_died_imp_closed (s : WorkerState) (op : Op)
    (ih : s.died = true → s.closed = true)
    (hd : (Worker.step s op).1.died = true) :
    (Worker.step s op).1.closed = true := by
  cases op <;>
    simp only [Worker.step, Worker.close, Worker.onExit, Worker.onError,
      Worker.onRunning, Worker.workerDied, Worker.setAppData,
      Worker.updateSettings, Worker.dump, Worker.getResourceUsage,
      Worker.createWebRtcServer, Worker.createRouter,
      Worker.routerSelfClosed, Worker.webRtcServerSelfClosed,
      channelRequest] at hd ⊢ <;>
    (try split_ifs at hd ⊢) <;>
    (try split at hd) <;>
    simp_all

/-- C2: in every reachable Worker state, `died == true` implies
`closed == true`: the only operation that sets the died flag
(`workerDied`) sets the closed flag in the same step, and no operation
ever resets the closed flag. -/
theorem Worker.died_implies_closed (s : WorkerState) (hr : Reachable s)
    (hd : s.died = true) : s.closed = true := by
  induction hr with
  | init pid st => simp [Worker.mk] at hd
  | step s' op _ ih => exact step_preserves_died_imp_closed s' op ih hd

/-- Witness for C2: a Worker that became ready and then saw its process
exit is a reachable state with `died = true`, and the theorem yields
`closed = true` there. -/
theorem Worker.died_implies_closed_witness :
    (Worker.step (Worker.step (Worker.mk 1 emptySettings) Op.running).1
        (Op.exit (some 1) none)).1.closed = true :=
  Worker.died_implies_closed _
    (Reachable.step _ _ (Reachable.step _ _ (Reachable.init 1 emptySettings)))
    (by decide)

/-- C1: a process exit delivered before readiness (`spawnDone = false`)
closes the Worker without marking it died; exit code 42 emits the
configuration-rejection failure `@failure` with
`TypeError('wrong settings')`, and any other code or signal emits a
generic startup failure whose message embeds the pid, exit code and
signal. -/
theorem Worker.exit_before_ready (s : WorkerState) (code : Option Int)
    (signal : Option String) (hs : s.spawnDone = false) (hc : s.closed = false)
    (hd : s.died = false) :
    (Worker.onExit s code signal).1.closed = true ∧
    (Worker.onExit s code signal).1.died = false ∧
    (code = some 42 →
      Action.emitFailure (WorkerError.typeError "wrong settings") ∈
        (Worker.onExit s code signal).2) ∧
    (code ≠ some 42 →
      Action.emitFailure (WorkerError.error (exitMessage s.pid code signal)) ∈
        (Worker.onExit s code signal).2) := by
  by_cases h42 : code = some 42 <;>
    simp [Worker.onExit, Worker.close, hs, hc, hd, h42]

/-- Witness for C1: a pre-readiness exit with code 42 yields the
rejection failure and the `closed = true, died = false` end state. -/
theorem Worker.exit_before_ready_witness :
    (Worker.onExit (Worker.mk 7 emptySettings) (some 42) none).1.closed = true ∧
    (Worker.onExit (Worker.mk 7 emptySettings) (some 42) none).1.died = false ∧
    (some 42 = some (42 : Int) →
      Action.emitFailure (WorkerError.typeError "wrong settings") ∈
        (Worker.onExit (Worker.mk 7 emptySettings) (some 42) none).2) ∧
    (some 42 ≠ some (42 : Int) →
      Action.emitFailure
          (WorkerError.error (exitMessage (Worker.mk 7 emptySettings).pid
            (some 42) none)) ∈
        (Worker.onExit (Worker.mk 7 emptySettings) (some 42) none).2) :=
  Worker.exit_before_ready (Worker.mk 7 emptySettings) (some 42) none
    (by decide) (by decide) (by decide)

/-- Counting the owner-initiated close of one Router in a cascade
segment. -/
lemma count_routerClosed_map (l : List Nat) (r : Nat) (hnd : l.Nodup)
    (hm : r ∈ l) :
    (l.map Action.routerWorkerClosed).count (Action.routerWorkerClosed r) = 1 := by
  have hinj : Function.Injective Action.routerWorkerClosed := by
    intro a b hab
    simpa using hab
  rw [List.count_map_of_injective l _ hinj]
  exact List.count_eq_one_of_mem hnd hm

/-- Counting the owner-initiated close of one WebRtcServer in a cascade
segment. -/
lemma count_webRtcServerClosed_map (l : List Nat) (w : Nat) (hnd : l.Nodup)
    (hm : w ∈ l) :
    (l.map Action.webRtcServerWorkerClosed).count
      (Action.webRtcServerWorkerClosed w) = 1 := by
  have hinj : Function.Injective Action.webRtcServerWorkerClosed := by
    intro a b hab
    simpa using hab
  rw [List.count_map_of_injective l _ hinj]
  exact List.count_eq_one_of_mem hnd hm

/-- C4: when `close()` or `workerDied()` runs on an open Worker, every
Router and WebRtcServer registered at that moment receives exactly one
owner-initiated `workerClosed()` call, and both registries end empty. -/
theorem Worker.cascade_closes_each_resource_once (s : WorkerState)
    (err : WorkerError) (hc : s.closed = false) (hr : s.routers.Nodup)
    (hw : s.webRtcServers.Nodup) :
    ((Worker.close s).1.routers = [] ∧
     (Worker.close s).1.webRtcServers = [] ∧
     (∀ r ∈ s.routers,
       (Worker.close s).2.count (Action.routerWorkerClosed r) = 1) ∧
     (∀ w ∈ s.webRtcServers,
       (Worker.close s).2.count (Action.webRtcServerWorkerClosed w) = 1)) ∧
    ((Worker.workerDied s err).1.routers = [] ∧
     (Worker.workerDied s err).1.webRtcServers = [] ∧
     (∀ r ∈ s.routers,
       (Worker.workerDied s err).2.count (Action.routerWorkerClosed r) = 1) ∧
     (∀ w ∈ s.webRtcServers,
       (Worker.workerDied s err).2.count
         (Action.webRtcServerWorkerClosed w) = 1)) := by
  refine ⟨⟨?_, ?_, ?_, ?_⟩, ⟨?_, ?_, ?_, ?_⟩⟩ <;>
    simp [Worker.close, Worker.workerDied, hc, List.count_append]
  · intro r hm
    simp [count_routerClosed_map s.routers r hr hm,
      List.count_eq_zero_of_not_mem]
  · intro w hm
    simp [count_webRtcServerClosed_map s.webRtcServers w hw hm,
      List.count_eq_zero_of_not_mem]
  · intro r hm
    simp [count_routerClosed_map s.routers r hr hm,
      List.count_eq_zero_of_not_mem]
  · intro w hm
    simp [count_webRtcServerClosed_map s.webRtcServers w hw hm,
      List.count_eq_zero_of_not_mem]

/-- Witness for C4: a Worker with two registered Routers and one
registered WebRtcServer. -/
theorem Worker.cascade_closes_each_resource_once_witness :
    (((Worker.close
          { Worker.mk 3 emptySettings with
              routers := [1, 2], webRtcServers := [5] }).1.routers = [] ∧
      (Worker.close
          { Worker.mk 3 emptySettings with
              routers := [1, 2], webRtcServers := [5] }).1.webRtcServers = [] ∧
      (∀ r ∈ [1, 2],
        (Worker.close
            { Worker.mk 3 emptySettings with
                routers := [1, 2], webRtcServers := [5] }).2.count
          (Action.routerWorkerClosed r) = 1) ∧
      (∀ w ∈ [5],
        (Worker.close
            { Worker.mk 3 emptySettings with
                routers := [1, 2], webRtcServers := [5] }).2.count
          (Action.webRtcServerWorkerClosed w) = 1)) ∧
     ((Worker.workerDied
          { Worker.mk 3 emptySettings with
              routers := [1, 2], webRtcServers := [5] }
          (WorkerError.error "boom")).1.routers = [] ∧
      (Worker.workerDied
          { Worker.mk 3 emptySettings with
              routers := [1, 2], webRtcServers := [5] }
          (WorkerError.error "boom")).1.webRtcServers = [] ∧
      (∀ r ∈ [1, 2],
        (Worker.workerDied
            { Worker.mk 3 emptySettings with
                routers := [1, 2], webRtcServers := [5] }
            (WorkerError.error "boom")).2.count
          (Action.routerWorkerClosed r) = 1) ∧
      (∀ w ∈ [5],
        (Worker.workerDied
            { Worker.mk 3 emptySettings with
                routers := [1, 2], webRtcServers := [5] }
            (WorkerError.error "boom")).2.count
          (Action.webRtcServerWorkerClosed w) = 1))) :=
  Worker.cascade_closes_each_resource_once
    { Worker.mk 3 emptySettings with routers := [1, 2], webRtcServers := [5] }
    (WorkerError.error "boom") (by decide) (by decide) (by decide)

/-- Whether a channel-mediated call failed. -/
def reqFailed : Except WorkerError α → Bool
  | Except.error _ => true
  | Except.ok _ => false

/-- C5: every request operation invoked after `close()` has run — dump,
getResourceUsage, updateSettings, createWebRtcServer, createRouter —
fails immediately, performs no action at all (in particular sends no
message to the worker process) and leaves the state unchanged. -/
theorem Worker.requests_after_close_fail (s : WorkerState)
    (resp : DumpResponse) (ru : ResourceUsageResponse) (dW dR : JSValue)
    (o : Except WorkerError Unit) (idW idR : Nat) (h : s.closed = false) :
    (reqFailed (Worker.dump (Worker.close s).1 resp).2.1 = true ∧
      (Worker.dump (Worker.close s).1 resp).2.2 = [] ∧
      (Worker.dump (Worker.close s).1 resp).1 = (Worker.close s).1) ∧
    (reqFailed (Worker.getResourceUsage (Worker.close s).1 ru).2.1 = true ∧
      (Worker.getResourceUsage (Worker.close s).1 ru).2.2 = [] ∧
      (Worker.getResourceUsage (Worker.close s).1 ru).1 = (Worker.close s).1) ∧
    (reqFailed (Worker.updateSettings (Worker.close s).1).2.1 = true ∧
      (Worker.updateSettings (Worker.close s).1).2.2 = [] ∧
      (Worker.updateSettings (Worker.close s).1).1 = (Worker.close s).1) ∧
    (reqFailed (Worker.createWebRtcServer (Worker.close s).1 dW idW).2.1 = true ∧
      (Worker.createWebRtcServer (Worker.close s).1 dW idW).2.2 = [] ∧
      (Worker.createWebRtcServer (Worker.close s).1 dW idW).1 =
        (Worker.close s).1) ∧
    (reqFailed (Worker.createRouter (Worker.close s).1 dR o idR).2.1 = true ∧
      (Worker.createRouter (Worker.close s).1 dR o idR).2.2 = [] ∧
      (Worker.createRouter (Worker.close s).1 dR o idR).1 =
        (Worker.close s).1) := by
  have hch : (Worker.close s).1.channelClosed = true :=
    channelClosed_after_close s h
  refine ⟨⟨?_, ?_, ?_⟩, ⟨?_, ?_, ?_⟩, ⟨?_, ?_, ?_⟩, ⟨?_, ?_, ?_⟩,
    ⟨?_, ?_, ?_⟩⟩ <;>
    simp [Worker.dump, Worker.getResourceUsage, Worker.updateSettings,
      Worker.createWebRtcServer, Worker.createRouter, channelRequest, hch,
      reqFailed] <;>
    split_ifs <;>
    cases o <;>
    simp [reqFailed]

/-- Witness for C5: a fresh open Worker that is closed and then asked to
perform each request. -/
theorem Worker.requests_after_close_fail_witness :
    (reqFailed (Worker.dump (Worker.close (Worker.mk 9 emptySettings)).1
        ⟨9, [], [], [], [], none⟩).2.1 = true ∧
      (Worker.dump (Worker.close (Worker.mk 9 emptySettings)).1
        ⟨9, [], [], [], [], none⟩).2.2 = [] ∧
      (Worker.dump (Worker.close (Worker.mk 9 emptySettings)).1
        ⟨9, [], [], [], [], none⟩).1 = (Worker.close (Worker.mk 9 emptySettings)).1) ∧
    (reqFailed (Worker.getResourceUsage (Worker.close (Worker.mk 9 emptySettings)).1
        ⟨0, 0, 0, 0, 0, 0, 0, 0, 0, 0, 0, 0, 0, 0, 0, 0⟩).2.1 = true ∧
      (Worker.getResourceUsage (Worker.close (Worker.mk 9 emptySettings)).1
        ⟨0, 0, 0, 0, 0, 0, 0, 0, 0, 0, 0, 0, 0, 0, 0, 0⟩).2.2 = [] ∧
      (Worker.getResourceUsage (Worker.close (Worker.mk 9 emptySettings)).1
        ⟨0, 0, 0, 0, 0, 0, 0, 0, 0, 0, 0, 0, 0, 0, 0, 0⟩).1 =
        (Worker.close (Worker.mk 9 emptySettings)).1) ∧
    (reqFailed (Worker.updateSettings (Worker.close (Worker.mk 9 emptySettings)).1).2.1 = true ∧
      (Worker.updateSettings (Worker.close (Worker.mk 9 emptySettings)).1).2.2 = [] ∧
      (Worker.updateSettings (Worker.close (Worker.mk 9 emptySettings)).1).1 =
        (Worker.close (Worker.mk 9 emptySettings)).1) ∧
    (reqFailed (Worker.createWebRtcServer (Worker.close (Worker.mk 9 emptySettings)).1
        JSValue.undefined 11).2.1 = true ∧
      (Worker.createWebRtcServer (Worker.close (Worker.mk 9 emptySettings)).1
        JSValue.undefined 11).2.2 = [] ∧
      (Worker.createWebRtcServer (Worker.close (Worker.mk 9 emptySettings)).1
        JSValue.undefined 11).1 = (Worker.close (Worker.mk 9 emptySettings)).1) ∧
    (reqFailed (Worker.createRouter (Worker.close (Worker.mk 9 emptySettings)).1
        JSValue.undefined (Except.ok ()) 12).2.1 = true ∧
      (Worker.createRouter (Worker.close (Worker.mk 9 emptySettings)).1
        JSValue.undefined (Except.ok ()) 12).2.2 = [] ∧
      (Worker.createRouter (Worker.close (Worker.mk 9 emptySettings)).1
        JSValue.undefined (Except.ok ()) 12).1 =
        (Worker.close (Worker.mk 9 emptySettings)).1) :=
  Worker.requests_after_close_fail (Worker.mk 9 emptySettings)
    ⟨9, [], [], [], [], none⟩ ⟨0, 0, 0, 0, 0, 0, 0, 0, 0, 0, 0, 0, 0, 0, 0, 0⟩
    JSValue.undefined JSValue.undefined (Except.ok ()) 11 12 (by decide)

/-- C7: a creation call given a truthy non-object `appData` throws the
`TypeError` locally: no action is performed (nothing is encoded or sent
through the Channel, no observer event), and the state — in particular
both registries — is unchanged. -/
theorem Worker.create_rejects_primitive_appData (s : WorkerState)
    (d : JSValue) (o : Except WorkerError Unit) (idW idR : Nat)
    (ht : d.truthy = true) (hn : d.typeofObject = false) :
    Worker.createWebRtcServer s d idW =
      (s,
       Except.error (WorkerError.typeError "if given, appData must be an object"),
       []) ∧
    Worker.createRouter s d o idR =
      (s,
       Except.error (WorkerError.typeError "if given, appData must be an object"),
       []) := by
  constructor <;> simp [Worker.createWebRtcServer, Worker.createRouter, ht, hn]

/-- Witness for C7: a numeric `appData` is truthy and not an object. -/
theorem Worker.create_rejects_primitive_appData_witness :
    Worker.createWebRtcServer (Worker.mk 4 emptySettings) (JSValue.num 5) 21 =
      (Worker.mk 4 emptySettings,
       Except.error (WorkerError.typeError "if given, appData must be an object"),
       []) ∧
    Worker.createRouter (Worker.mk 4 emptySettings) (JSValue.num 5)
        (Except.ok ()) 22 =
      (Worker.mk 4 emptySettings,
       Except.error (WorkerError.typeError "if given, appData must be an object"),
       []) :=
  Worker.create_rejects_primitive_appData (Worker.mk 4 emptySettings)
    (JSValue.num 5) (Except.ok ()) 21 22 (by decide) (by decide)

/-- C8: a successful `getResourceUsage()` on a Worker whose Channel is
open returns exactly the sixteen documented numeric fields — the
`WorkerResourceUsage` record type has no other field — each converted
from the corresponding field of the decoded response. -/
theorem Worker.getResourceUsage_sixteen_fields (s : WorkerState)
    (ru : ResourceUsageResponse) (h : s.channelClosed = false) :
    Worker.getResourceUsage s ru =
      (s,
       Except.ok
         ⟨ru.ruUtime, ru.ruStime, ru.ruMaxrss, ru.ruIxrss, ru.ruIdrss,
          ru.ruIsrss, ru.ruMinflt, ru.ruMajflt, ru.ruNswap, ru.ruInblock,
          ru.ruOublock, ru.ruMsgsnd, ru.ruMsgrcv, ru.ruNsignals, ru.ruNvcsw,
          ru.ruNivcsw⟩,
       [Action.channelSend "WORKER_GET_RESOURCE_USAGE"]) := by
  simp [Worker.getResourceUsage, channelRequest, h]

/-- Witness for C8: a running Worker and a concrete response. -/
theorem Worker.getResourceUsage_sixteen_fields_witness :
    Worker.getResourceUsage (Worker.mk 2 emptySettings)
        ⟨1, 2, 3, 4, 5, 6, 7, 8, 9, 10, 11, 12, 13, 14, 15, 16⟩ =
      (Worker.mk 2 emptySettings,
       Except.ok ⟨1, 2, 3, 4, 5, 6, 7, 8, 9, 10, 11, 12, 13, 14, 15, 16⟩,
       [Action.channelSend "WORKER_GET_RESOURCE_USAGE"]) :=
  Worker.getResourceUsage_sixteen_fields (Worker.mk 2 emptySettings)
    ⟨1, 2, 3, 4, 5, 6, 7, 8, 9, 10, 11, 12, 13, 14, 15, 16⟩ (by decide)

/-- A delivered `exit` event is a no-op on a closed Worker whose spawn
was decided and whose child reference is gone. -/
lemma onExit_inert (s : WorkerState) (code : Option Int)
    (signal : Option String) (hc : s.closed = true) (hs : s.spawnDone = true)
    (ha : s.childAlive = false) :
    Worker.onExit s code signal = (s, []) := by
  cases s with
  | mk childAlive pid channelClosed closed died appData routers wrs spawnDone =>
    simp only [WorkerState.childAlive] at ha
    simp only [WorkerState.closed] at hc
    simp only [WorkerState.spawnDone] at hs
    subst ha hc hs
    simp [Worker.onExit, Worker.workerDied]

/-- A delivered `error` event is a no-op on a closed Worker whose spawn
was decided and whose child reference is gone. -/
lemma onError_inert (s : WorkerState) (err : WorkerError)
    (hc : s.closed = true) (hs : s.spawnDone = true)
    (ha : s.childAlive = false) :
    Worker.onError s err = (s, []) := by
  cases s with
  | mk childAlive pid channelClosed closed died appData routers wrs spawnDone =>
    simp only [WorkerState.childAlive] at ha
    simp only [WorkerState.closed] at hc
    simp only [WorkerState.spawnDone] at hs
    subst ha hc hs
    simp [Worker.onError, Worker.workerDied]

/-- C9: once a Worker is closed without having died, any sequence of
subsequently delivered process `exit` or `error` events leaves the state
untouched and performs no action: `workerDied` returns immediately, the
died flag stays false, no `died` event is emitted and neither the
cascade nor the observer `close` emission runs again. -/
theorem Worker.closed_worker_ignores_process_events (s : WorkerState)
    (evs : List ProcEvent) (hc : s.closed = true) (hd : s.died = false)
    (hs : s.spawnDone = true) (ha : s.childAlive = false) :
    deliverEvents s evs = (s, []) ∧ (deliverEvents s evs).1.died = false := by
  have key : deliverEvents s evs = (s, []) := by
    induction evs with
    | nil => rfl
    | cons e es ih =>
      cases e with
      | exit code signal =>
        simp [deliverEvents, onExit_inert s code signal hc hs ha, ih]
      | errorEvent err =>
        simp [deliverEvents, onError_inert s err hc hs ha, ih]
  refine ⟨key, ?_⟩
  rw [key]
  exact hd

/-- Witness for C9: a Worker closed right after readiness, then hit by
an `exit` and an `error` event. -/
theorem Worker.closed_worker_ignores_process_events_witness :
    deliverEvents
        (Worker.close (Worker.step (Worker.mk 6 emptySettings) Op.running).1).1
        [ProcEvent.exit (some 0) none,
         ProcEvent.errorEvent (WorkerError.error "io")] =
      ((Worker.close (Worker.step (Worker.mk 6 emptySettings) Op.running).1).1,
       []) ∧
    (deliverEvents
        (Worker.close (Worker.step (Worker.mk 6 emptySettings) Op.running).1).1
        [ProcEvent.exit (some 0) none,
         ProcEvent.errorEvent (WorkerError.error "io")]).1.died = false :=
  Worker.closed_worker_ignores_process_events
    (Worker.close (Worker.step (Worker.mk 6 emptySettings) Op.running).1).1
    [ProcEvent.exit (some 0) none, ProcEvent.errorEvent (WorkerError.error "io")]
    (by decide) (by decide) (by decide) (by decide)

/-- C10: when the supplied `appData` is absent, undefined or otherwise
falsy, the constructed Worker's `appData` is the empty object `{}` —
never `undefined` — and the `appData` setter replaces the value on any
state whatsoever, closed or died included. -/
theorem Worker.appData_defaults_and_setter (st : WorkerSettings) (pid : Nat)
    (s : WorkerState) (d : JSValue) (h : st.appData.truthy = false) :
    (Worker.mk pid st).appData = JSValue.obj [] ∧
    (Worker.mk pid st).appData ≠ JSValue.undefined ∧
    (Worker.setAppData s d).appData = d := by
  simp [Worker.mk, Worker.setAppData, h]

/-- Witness for C10: settings without `appData`, and a setter call on a
Worker that is closed and died. -/
theorem Worker.appData_defaults_and_setter_witness :
    (Worker.mk 1 emptySettings).appData = JSValue.obj [] ∧
    (Worker.mk 1 emptySettings).appData ≠ JSValue.undefined ∧
    (Worker.setAppData
        (Worker.workerDied (Worker.mk 1 emptySettings)
          (WorkerError.error "gone")).1
        (JSValue.str "fresh")).appData = JSValue.str "fresh" :=
  Worker.appData_defaults_and_setter emptySettings 1
    (Worker.workerDied (Worker.mk 1 emptySettings)
      (WorkerError.error "gone")).1
    (JSValue.str "fresh") (by decide)

/-- C6 fails as stated: `logTags` is a recognized setting supplied with
its correct type (an array of valid tag strings), yet it contributes two
`--logTag=...` arguments to the spawn argument list, not exactly one. -/
theorem spawnArgs_logTags_not_one_arg :
    keyCount "logTag"
        (settingsArgs
          { emptySettings with
              logTags := JSValue.arr [JSFlat.str "info", JSFlat.str "ice"] }) = 2 ∧
    ¬keyCount "logTag"
        (settingsArgs
          { emptySettings with
              logTags := JSValue.arr [JSFlat.str "info", JSFlat.str "ice"] }) = 1 ∧
    spawnArgs plainEnv "mediasoup-worker"
        { emptySettings with
            logTags := JSValue.arr [JSFlat.str "info", JSFlat.str "ice"] } =
      ["--logTag=info", "--logTag=ice"] := by
  decide

set_option maxHeartbeats 2000000 in
/-- C6 (amended): every scalar setting contributes exactly one
`--key=value` argument when it passes the source's type-and-truthiness
check (a non-empty string, or a non-NaN number for the ports) and no
argument otherwise — absent, wrong-typed, empty-string or NaN values are
silently omitted, never defaulted; `logTags` contributes one
`--logTag=value` argument per non-empty-string element of an array value
and none otherwise; and spawning with `rtcMinPort=10000` and
`rtcMaxPort=10010` yields exactly `--rtcMinPort=10000` and
`--rtcMaxPort=10010`, with no other (port or any) argument. -/
theorem spawnArgs_per_setting (st : WorkerSettings) :
    (keyCount "logLevel" (settingsArgs st) =
      if st.logLevel.typeofString ∧ st.logLevel.truthy then 1 else 0) ∧
    (keyCount "logTag" (settingsArgs st) =
      (st.logTags.elements.filter fun t =>
        t.typeofString ∧ t.truthy).length) ∧
    (keyCount "rtcMinPort" (settingsArgs st) =
      if st.rtcMinPort.typeofNumber ∧ ¬st.rtcMinPort.isNaN then 1 else 0) ∧
    (keyCount "rtcMaxPort" (settingsArgs st) =
      if st.rtcMaxPort.typeofNumber ∧ ¬st.rtcMaxPort.isNaN then 1 else 0) ∧
    (keyCount "dtlsCertificateFile" (settingsArgs st) =
      if st.dtlsCertificateFile.typeofString ∧ st.dtlsCertificateFile.truthy
      then 1 else 0) ∧
    (keyCount "dtlsPrivateKeyFile" (settingsArgs st) =
      if st.dtlsPrivateKeyFile.typeofString ∧ st.dtlsPrivateKeyFile.truthy
      then 1 else 0) ∧
    (keyCount "libwebrtcFieldTrials" (settingsArgs st) =
      if st.libwebrtcFieldTrials.typeofString ∧ st.libwebrtcFieldTrials.truthy
      then 1 else 0) ∧
    spawnArgs plainEnv "mediasoup-worker"
        { emptySettings with
            rtcMinPort := JSValue.num 10000, rtcMaxPort := JSValue.num 10010 } =
      ["--rtcMinPort=10000", "--rtcMaxPort=10010"] := by
  refine ⟨?_, ?_, ?_, ?_, ?_, ?_, ?_, by decide⟩ <;>
  · simp only [keyCount, settingsArgs, List.countP_append]
    split_ifs <;> simp [List.countP_map, Function.comp]

end Mediasoup
